import Mathlib

/-!
Verification of the power/load state-propagation engine of the simengine
digital-twin simulator (`enginecore/state/hardware/asset.py`) and of the
threshold evaluator of the storcli emulator
(`enginecore/state/agent/storcli_emu.py`).

Numeric quantities (voltages, loads) are Python floats in the source; they
are embedded as exact rationals (`ℚ`).  Power statuses are the 0/1 integers
the source uses (`0` = Down, `1` = Up), embedded as `ℕ` so the source's
arithmetic on them (`old_out_volt * asset_event.state.old`) and its
truthiness tests (`if ... and asset_event.state.old`) translate directly.
-/

namespace SimEngine

/-- Python `int(q)` on a float/rational: truncation toward zero. -/
def pyInt (q : ℚ) : ℤ :=
  Int.sign q.num * ((q.num.natAbs / q.den : ℕ) : ℤ)

/-- Python `n ^ 1` (bitwise xor with 1) on an int: flips the lowest bit,
so an even number gains 1 and an odd number loses 1 (this also matches
Python's two's-complement behaviour on negative ints). -/
def pyXorOne (n : ℤ) : ℤ :=
  if n % 2 = 0 then n + 1 else n - 1

/-- A pair of old/new values carried by a cascading event. -/
structure ValuePair (α : Type) where
  old : α
  new : α
deriving DecidableEq

/-- The mutable per-asset record (`self._state` fields plus the static
per-asset-type properties `min_voltage` and `power_consumption`, which the
state manager exposes read-only). -/
structure AssetState where
  key : ℕ
  input_voltage : ℚ
  load : ℚ
  status : ℕ
  boot_time : ℕ
  min_voltage : ℚ
  power_consumption : ℚ
deriving DecidableEq

namespace StateManager

/-- Modelled from the spec: the state manager's `update_input_voltage`
setter (the state-manager class itself is outside the sampled source);
stores the new measured input voltage. -/
def update_input_voltage (s : AssetState) (v : ℚ) : AssetState :=
  { s with input_voltage := v }

/-- Modelled from the spec: the state manager's `update_load` setter;
stores the new load value. -/
def update_load (s : AssetState) (l : ℚ) : AssetState :=
  { s with load := l }

/-- Modelled from the spec: `reset_boot_time` records the current
timestamp as the asset's boot time. -/
def reset_boot_time (s : AssetState) (now : ℕ) : AssetState :=
  { s with boot_time := now }

/-- Modelled from the spec: the state manager's `power_up` unconditionally
sets the status to Up (1) and resets the boot time; it returns the new
status, which callers read off the resulting state. -/
def power_up (s : AssetState) (now : ℕ) : AssetState :=
  { s with status := 1, boot_time := now }

/-- Modelled from the spec: the state manager's `power_off` unconditionally
sets the status to Down (0); it returns the new status, which callers read
off the resulting state. -/
def power_off (s : AssetState) : AssetState :=
  { s with status := 0 }

end StateManager

/-- The cascading power event rebuilt at every hop
(old/new status, old/new output voltage, old/new load). -/
structure PowerEvent where
  state : ValuePair ℕ
  out_volt : ValuePair ℚ
  load : ValuePair ℚ
deriving DecidableEq

/-- The `LoadEventResult` tuple (asset key, old load, new load). -/
structure LoadEventResult where
  asset_key : ℕ
  old_load : ℚ
  new_load : ℚ
deriving DecidableEq

/-- Modelled from the spec: `event.get_next_power_event(self)` (the event
classes are outside the sampled source) rebuilds the cascading event scoped
to this asset's children: old out-voltage is the asset's previously stored
input voltage, new out-voltage is the event's `new_in_volt`, and the
status/load pairs start from the asset's current values. -/
def get_next_power_event (s : AssetState) (new_in_volt : ℚ) : PowerEvent :=
  { state := ⟨s.status, s.status⟩
    out_volt := ⟨s.input_voltage, new_in_volt⟩
    load := ⟨0, 0⟩ }

/-- `calc_load` from `_process_parent_volt_e`:
`power_consumption / v if v else 0`. -/
def calc_load (power_consumption v : ℚ) : ℚ :=
  if v ≠ 0 then power_consumption / v else 0

/-- The power-action block of `_process_parent_volt_e` (lines 174-191):
pick `power_off` when the new voltage is at or below `min_voltage` and the
asset is up, `power_up` when it is above and the asset is down, and in
either case rewrite the event's status pair and out-voltage pair
(`out_volt.old * state.old` and `out_volt.new * (int(out_volt.old) ^ 1)`). -/
def voltPowerStep (s : AssetState) (asset_event : PowerEvent) (now : ℕ) :
    AssetState × PowerEvent :=
  let old_out_volt := asset_event.out_volt.old
  let new_out_volt := asset_event.out_volt.new
  if new_out_volt ≤ s.min_voltage ∧ asset_event.state.old ≠ 0 then
    let s1 := StateManager.power_off s
    (s1,
      { asset_event with
        state := ⟨asset_event.state.old, s1.status⟩
        out_volt := ⟨old_out_volt * (asset_event.state.old : ℚ),
          new_out_volt * ((pyXorOne (pyInt old_out_volt) : ℤ) : ℚ)⟩ })
  else if s.min_voltage < new_out_volt ∧ asset_event.state.old = 0 then
    let s1 := StateManager.power_up s now
    (s1,
      { asset_event with
        state := ⟨asset_event.state.old, s1.status⟩
        out_volt := ⟨old_out_volt * (asset_event.state.old : ℚ),
          new_out_volt * ((pyXorOne (pyInt old_out_volt) : ℤ) : ℚ)⟩ })
  else (s, asset_event)

/-- `Asset._process_parent_volt_e`: rebuild the cascading event, set its
old status, run the power-action block, recompute the asset's own load
contribution for the event's (possibly rewritten) old and new out-voltages,
store them on the event, and apply the load delta to the stored load when
they differ. -/
def processParentVoltE (s : AssetState) (new_in_volt : ℚ) (now : ℕ) :
    AssetState × PowerEvent :=
  let asset_event0 := get_next_power_event s new_in_volt
  let asset_event1 :=
    { asset_event0 with state := { asset_event0.state with old := s.status } }
  let p := voltPowerStep s asset_event1 now
  let old_load := calc_load s.power_consumption p.2.out_volt.old
  let new_load := calc_load s.power_consumption p.2.out_volt.new
  let asset_event2 := { p.2 with load := ⟨old_load, new_load⟩ }
  let s2 :=
    if new_load ≠ old_load then
      StateManager.update_load p.1 (p.1.load - old_load + new_load)
    else p.1
  (s2, asset_event2)

/-- `Asset._update_load`: compute the new load from the old one and the
measured change via the supplied arithmetic op, store it, and return the
`LoadEventResult`. -/
def update_load_op (s : AssetState) (load_change : ℚ)
    (arithmetic_op : ℚ → ℚ → ℚ) : AssetState × LoadEventResult :=
  let old_load := s.load
  let new_load := arithmetic_op old_load load_change
  (StateManager.update_load s new_load, ⟨s.key, old_load, new_load⟩)

/-- `Asset.on_load_increase` (`ChildAssetLoadIncreased` / `ChildAssetPowerUp`):
`old + change`. -/
def on_load_increase (s : AssetState) (child_load : ℚ) :
    AssetState × LoadEventResult :=
  update_load_op s child_load (fun old change => old + change)

/-- `Asset.on_load_decrease` (`ChildAssetLoadDecreased` / `ChildAssetPowerDown`):
`old - change`. -/
def on_load_decrease (s : AssetState) (child_load : ℚ) :
    AssetState × LoadEventResult :=
  update_load_op s child_load (fun old change => old - change)

/-- A child load event delivered to the asset: either an increase or a
decrease carrying `child_load`. -/
inductive LoadEvent
  | increase (child_load : ℚ)
  | decrease (child_load : ℚ)
deriving DecidableEq

/-- Dispatch of one child load event to its handler. -/
def handleLoadEvent (s : AssetState) : LoadEvent → AssetState × LoadEventResult
  | .increase x => on_load_increase s x
  | .decrease x => on_load_decrease s x

/-- State after handling a whole sequence of child load events. -/
def runLoadEvents (s : AssetState) (es : List LoadEvent) : AssetState :=
  es.foldl (fun st e => (handleLoadEvent st e).1) s

/-- The bound the spec places on its randomized load sequences: each
increase is of a nonnegative amount, and each decrease never exceeds the
load stored at the moment it is handled. -/
def loadSeqGuarded : AssetState → List LoadEvent → Bool
  | _, [] => true
  | s, e :: rest =>
    (match e with
      | .increase x => decide (0 ≤ x)
      | .decrease x => decide (x ≤ s.load))
    && loadSeqGuarded (handleLoadEvent s e).1 rest

/-- The event classes an asset records as the reason for its power state
(`asset_events`; only the tag identity matters for the engine). -/
inductive AssetEventTag
  | buttonPowerUpPressed
  | buttonPowerDownPressed
  | inputVoltageUpEvent
  | inputVoltageDownEvent
deriving DecidableEq, BEq

/-- An `Asset`: its state record plus the recorded state-change reason. -/
structure Asset where
  state : AssetState
  state_reason : AssetEventTag
deriving DecidableEq

/-- `Asset.__init__`: record `ButtonPowerUpPressed` as the default state
reason, zero the stored input voltage, reset the boot time, and zero the
stored load. -/
def assetInit (st : AssetState) (now : ℕ) : Asset :=
  let st1 := StateManager.update_input_voltage st 0
  let st2 := StateManager.reset_boot_time st1 now
  let st3 := StateManager.update_load st2 0
  { state := st3, state_reason := .buttonPowerUpPressed }

/-- `Asset.power_state_caused_by_user`: true when the recorded reason is
one of the two button events. -/
def power_state_caused_by_user (a : Asset) : Bool :=
  a.state_reason == AssetEventTag.buttonPowerDownPressed
    || a.state_reason == AssetEventTag.buttonPowerUpPressed

/-- The two handlers registered for `InputVoltageUpEvent` /
`InputVoltageDownEvent`: the voltage-commit handler `detect_input_voltage`
and the transition handler `on_parent_volt_up` / `on_parent_volt_down`
(both of which only call `_process_parent_volt_e`). -/
inductive VoltHandlerTag
  | detectInputVoltage
  | onParentVolt
deriving DecidableEq

/-- The declared handler priorities: `detect_input_voltage` is registered
with `priority=-1`, the transition handlers with the default priority 0. -/
def voltHandlerPriority : VoltHandlerTag → ℤ
  | .detectInputVoltage => -1
  | .onParentVolt => 0

/-- The handlers in the order they are declared in the source file. -/
def registeredVoltHandlers : List VoltHandlerTag :=
  [.detectInputVoltage, .onParentVolt]

/-- Stable insertion of a handler into a priority-descending list. -/
def insertByPriority (h : VoltHandlerTag) :
    List VoltHandlerTag → List VoltHandlerTag
  | [] => [h]
  | h2 :: rest =>
    if voltHandlerPriority h2 < voltHandlerPriority h then h :: h2 :: rest
    else h2 :: insertByPriority h rest

/-- Modelled from the spec: the external event bus runs the handlers
registered for an event in priority order, highest priority first
(stable insertion sort by descending priority). -/
def dispatchOrder : List VoltHandlerTag → List VoltHandlerTag
  | [] => []
  | h :: rest => insertByPriority h (dispatchOrder rest)

/-- Run one registered handler on the accumulated (state, emitted event)
pair: the transition handler runs `_process_parent_volt_e` and emits the
cascading event; `detect_input_voltage` commits `new_in_volt` into the
state. -/
def runVoltHandler (t : VoltHandlerTag) (new_in_volt : ℚ) (now : ℕ) :
    AssetState × Option PowerEvent → AssetState × Option PowerEvent
  | (s, ev) =>
    match t with
    | .onParentVolt =>
      let r := processParentVoltE s new_in_volt now
      (r.1, some r.2)
    | .detectInputVoltage =>
      (StateManager.update_input_voltage s new_in_volt, ev)

/-- Delivery of one `InputVoltageUpEvent` / `InputVoltageDownEvent` to the
asset: run the registered handlers in bus priority order. -/
def dispatchInputVoltageEvent (s : AssetState) (new_in_volt : ℚ) (now : ℕ) :
    AssetState × Option PowerEvent :=
  (dispatchOrder registeredVoltHandlers).foldl
    (fun acc t => runVoltHandler t new_in_volt now acc) (s, none)

end SimEngine

namespace StorCLI

/-- Python dict lookup `row[k]` on an association list (insertion-ordered,
as Python dicts are). -/
def lookupProp (row : List (String × Int)) (k : String) : Option Int :=
  (row.find? (fun p => p.1 == k)).map (fun p => p.2)

/-- The inner loop of `StorCLIEmulator._get_state_from_config` for one
status row: iterate the measured counters in their declared order and
return true on the first one whose value is `>=` the row's threshold with
the threshold not `-1` and the status not the optimal one; `none` models
the `KeyError` raised when a measured counter is missing from the row. -/
def scanRow : List (String × Int) → List (String × Int) → String → String →
    Option Bool
  | [], _, _, _ => some false
  | pv :: rest, row, status, optimal =>
    match lookupProp row pv.1 with
    | none => none
    | some t =>
      if pv.2 ≥ t ∧ t ≠ -1 ∧ status ≠ optimal then some true
      else scanRow rest row status optimal

/-- `StorCLIEmulator._get_state_from_config`: iterate the statuses of the
config table in declared order and return the first one whose row matches
some measured counter; return `optimal` when none matches (`none` models a
`KeyError` on a malformed table). -/
def get_state_from_config : List (String × List (String × Int)) →
    List (String × Int) → String → Option String
  | [], _, optimal => some optimal
  | (status, row) :: rest, current_state, optimal =>
    match scanRow current_state row status optimal with
    | none => none
    | some true => some status
    | some false => get_state_from_config rest current_state optimal

/-- Whether a status row matches the measured counters: some measured
counter is at or above the row's threshold for it and that threshold is
not the `-1` sentinel. -/
def statusMatches (current_state row : List (String × Int)) : Bool :=
  current_state.any fun pv =>
    match lookupProp row pv.1 with
    | some t => decide (pv.2 ≥ t ∧ t ≠ -1)
    | none => false

/-- The spec's description of the evaluator: the first status in declared
order, skipping the optimal one, with some matching counter; the optimal
name when no status matches. -/
def specFirstMatch (s_conf : List (String × List (String × Int)))
    (current_state : List (String × Int)) (optimal : String) : String :=
  match s_conf.find?
      (fun sr => decide (sr.1 ≠ optimal) && statusMatches current_state sr.2) with
  | some sr => sr.1
  | none => optimal

def criticalName : String := "Critical"

def degradedName : String := "Degraded"

def optimalName : String := "Optimal"

def errorsKey : String := "errors"

/-- The spec's first-match example table:
Critical at 5 errors, Degraded at 1 error, and the Optimal baseline. -/
def criticalDegradedTable : List (String × List (String × Int)) :=
  [(criticalName, [(errorsKey, 5)]),
   (degradedName, [(errorsKey, 1)]),
   (optimalName, [(errorsKey, 0)])]

/-- Measured counters with 5 errors. -/
def errorsFive : List (String × Int) := [(errorsKey, 5)]

/-- A table whose only status has the `-1` sentinel threshold. -/
def sentinelTable : List (String × List (String × Int)) :=
  [(criticalName, [(errorsKey, -1)])]

/-- Measured counters with a huge error count. -/
def errorsHuge : List (String × Int) := [(errorsKey, 1000000)]

end StorCLI

namespace SimEngine

/-- An asset that is Up with stored input voltage 120 and stored load 2,
with `min_voltage = 100` and `power_consumption = 240` (the spec's
voltage-cascade scenario). -/
def upAt120 : AssetState := ⟨1, 120, 2, 1, 0, 100, 240⟩

/-- An asset that is Down at 0 V with zero load, with `min_voltage = 100`
and `power_consumption = 240` (the spec's recovery-cascade scenario). -/
def downAt0 : AssetState := ⟨1, 0, 0, 0, 0, 100, 240⟩

end SimEngine

namespace SimEngine

/-- C1: on the spec's voltage-cascade scenario (Up at 120 V, load 2,
`min_voltage` 100, `power_consumption` 240, `InputVoltageDownEvent` with
`new_in_volt = 80`) the code does transition to Down and carries
`old_load = 2`, but its rewritten out-voltage is `80 * (int(120) xor 1)
= 9680`, so the emitted `new_load` and the stored load are `240 / 9680 =
3/121`, not the `0` the spec requires. -/
theorem c1_voltage_cascade_eval :
    (processParentVoltE upAt120 80 0).1.status = 0 ∧
    (processParentVoltE upAt120 80 0).2.load.old = 2 ∧
    (processParentVoltE upAt120 80 0).2.load.new = 3 / 121 ∧
    (processParentVoltE upAt120 80 0).1.load = 3 / 121 ∧
    ¬(processParentVoltE upAt120 80 0).1.load = 0 ∧
    ¬(processParentVoltE upAt120 80 0).2.load.new = 0 := by
  norm_num [upAt120, processParentVoltE, voltPowerStep, get_next_power_event,
    calc_load, StateManager.power_off, StateManager.power_up,
    StateManager.update_load, pyInt, pyXorOne, Int.sign]

/-- C4: on the same power-down transition the emitted event's
`out_volt.old` is the pre-event voltage times the old status (120), as the
claim states, but `out_volt.new` is `80 * (int(120) xor 1) = 9680`, which
is neither `0` nor any of the voltages involved — the code does not meet
the claimed outbound-voltage contract. -/
theorem c4_out_volt_contract_eval :
    (processParentVoltE upAt120 80 0).2.state.old = 1 ∧
    (processParentVoltE upAt120 80 0).2.state.new = 0 ∧
    (processParentVoltE upAt120 80 0).2.out_volt.old = 120 ∧
    (processParentVoltE upAt120 80 0).2.out_volt.new = 9680 ∧
    ¬((processParentVoltE upAt120 80 0).2.out_volt.new = 0 ∨
      (processParentVoltE upAt120 80 0).2.out_volt.new = 120 ∨
      (processParentVoltE upAt120 80 0).2.out_volt.new = 80) := by
  norm_num [upAt120, processParentVoltE, voltPowerStep, get_next_power_event,
    calc_load, StateManager.power_off, StateManager.power_up,
    StateManager.update_load, pyInt, pyXorOne, Int.sign]

/-- C2: the voltage-driven status rule — a new out-voltage at or below
`min_voltage` takes an Up asset Down, one above `min_voltage` takes a Down
asset Up, and otherwise the status is unchanged; in particular an asset
Down at 0 V receiving `InputVoltageUpEvent` with `new_in_volt = 120` and
`min_voltage = 100` ends Up. -/
theorem c2_voltage_transition_rule :
    (∀ (s : AssetState) (new_in_volt : ℚ) (now : ℕ),
      (processParentVoltE s new_in_volt now).1.status =
        if new_in_volt ≤ s.min_voltage ∧ s.status ≠ 0 then 0
        else if s.min_voltage < new_in_volt ∧ s.status = 0 then 1
        else s.status) ∧
    (processParentVoltE downAt0 120 0).1.status = 1 := by
  constructor
  · intro s v now
    simp only [processParentVoltE, voltPowerStep, get_next_power_event,
      StateManager.power_off, StateManager.power_up, StateManager.update_load]
    split_ifs <;> simp_all
  · norm_num [downAt0, processParentVoltE, voltPowerStep, get_next_power_event,
      calc_load, StateManager.power_off, StateManager.power_up,
      StateManager.update_load, pyInt, pyXorOne, Int.sign]

/-- C8: the per-asset load computation is total — it equals
`power_consumption / v` for nonzero `v` and `0` at `v = 0`; in the
embedding it is a total function, so no division fault can occur. -/
theorem c8_calc_load_total :
    ∀ (power_consumption v : ℚ),
      calc_load power_consumption v =
        if v = 0 then 0 else power_consumption / v := by
  intro pc v
  by_cases h : v = 0 <;> simp [calc_load, h]

/-- C9: handling a child load increase of `x` and then a child load
decrease of `x` restores the stored load exactly. -/
theorem c9_load_round_trip :
    ∀ (s : AssetState) (x : ℚ),
      ((on_load_decrease (on_load_increase s x).1 x).1).load = s.load := by
  intro s x
  simp [on_load_increase, on_load_decrease, update_load_op,
    StateManager.update_load]

/-- C10: immediately after `Asset.__init__` the stored input voltage is 0,
the stored load is 0, the boot time has just been reset, and the recorded
state-change reason defaults to the button-power-up event, so
`power_state_caused_by_user` is already true. -/
theorem c10_asset_init :
    ∀ (st : AssetState) (now : ℕ),
      (assetInit st now).state.input_voltage = 0 ∧
      (assetInit st now).state.load = 0 ∧
      (assetInit st now).state.boot_time = now ∧
      (assetInit st now).state_reason = AssetEventTag.buttonPowerUpPressed ∧
      power_state_caused_by_user (assetInit st now) = true := by
  intro st now
  exact ⟨rfl, rfl, rfl, rfl, rfl⟩

end SimEngine

namespace SimEngine

/-- C3: in a voltage-driven transition the stored load is updated only by
the delta of the asset's own contribution — the emitted event's old/new
load fields are `calc_load` of the event's old/new out-voltages, the new
stored load is the previous one minus the old component plus the new one,
and therefore the remainder contributed by other children (stored load
minus the asset's own old component) is preserved exactly. -/
theorem c3_load_delta_preserved :
    ∀ (s : AssetState) (new_in_volt : ℚ) (now : ℕ),
      (processParentVoltE s new_in_volt now).2.load.old =
        calc_load s.power_consumption
          (processParentVoltE s new_in_volt now).2.out_volt.old ∧
      (processParentVoltE s new_in_volt now).2.load.new =
        calc_load s.power_consumption
          (processParentVoltE s new_in_volt now).2.out_volt.new ∧
      (processParentVoltE s new_in_volt now).1.load =
        s.load - (processParentVoltE s new_in_volt now).2.load.old
          + (processParentVoltE s new_in_volt now).2.load.new ∧
      (processParentVoltE s new_in_volt now).1.load -
          (processParentVoltE s new_in_volt now).2.load.new =
        s.load - (processParentVoltE s new_in_volt now).2.load.old := by
  intro s v now
  simp only [processParentVoltE, voltPowerStep, get_next_power_event,
    StateManager.power_off, StateManager.power_up, StateManager.update_load]
  split_ifs <;> simp_all

/-- C6 counterexample: from an asset whose stored load is 0, handling a
single child load-decrease of 1 leaves the stored load at -1, which is
negative — the unrestricted claim fails on the code. -/
theorem c6_nonneg_counterexample :
    ¬(0 ≤ (runLoadEvents downAt0 [LoadEvent.decrease 1]).load) := by
  norm_num [runLoadEvents, handleLoadEvent, on_load_decrease, update_load_op,
    StateManager.update_load, downAt0]

/-- C6 (amended): starting from a nonnegative stored load, for every
sequence of child load events in which each increase is nonnegative and
each decrease never exceeds the load stored at the moment it is handled,
the stored load is nonnegative after every step (i.e. after every prefix
of the sequence). -/
theorem c6_nonneg_guarded :
    ∀ (s : AssetState) (es : List LoadEvent) (n : ℕ),
      0 ≤ s.load → loadSeqGuarded s es = true →
      0 ≤ (runLoadEvents s (es.take n)).load := by
  intro s es n h hg
  induction es generalizing s n with
  | nil =>
    simpa [runLoadEvents] using h
  | cons e rest ih =>
    cases n with
    | zero => simpa [runLoadEvents] using h
    | succ m =>
      simp only [loadSeqGuarded, Bool.and_eq_true] at hg
      have hstep : 0 ≤ (handleLoadEvent s e).1.load := by
        cases e with
        | increase x =>
          have hx : (0 : ℚ) ≤ x := by simpa using hg.1
          simp only [handleLoadEvent, on_load_increase, update_load_op,
            StateManager.update_load]
          exact add_nonneg h hx
        | decrease x =>
          have hx : x ≤ s.load := by simpa using hg.1
          simp only [handleLoadEvent, on_load_decrease, update_load_op,
            StateManager.update_load]
          exact sub_nonneg.mpr hx
      simpa [runLoadEvents, List.take_succ_cons] using
        ih (handleLoadEvent s e).1 m hstep hg.2

/-- Witness for the amended C6 theorem at a concrete guarded sequence. -/
theorem c6_nonneg_guarded_witness :
    0 ≤ (runLoadEvents downAt0
      ([LoadEvent.increase 5, LoadEvent.decrease 3].take 2)).load :=
  c6_nonneg_guarded downAt0 [LoadEvent.increase 5, LoadEvent.decrease 3] 2
    (by norm_num [downAt0])
    (by norm_num [loadSeqGuarded, handleLoadEvent, on_load_increase,
      update_load_op, StateManager.update_load, downAt0])

/-- C7: `detect_input_voltage` is registered at a strictly lower priority
than the transition handler; the bus ordering therefore runs the
transition handler first, on the state as it was before the commit — the
rebuilt event it computes with carries the previously stored input
voltage — and only afterwards is `new_in_volt` committed into the state. -/
theorem c7_priority_ordering :
    voltHandlerPriority VoltHandlerTag.detectInputVoltage <
      voltHandlerPriority VoltHandlerTag.onParentVolt ∧
    dispatchOrder registeredVoltHandlers =
      [VoltHandlerTag.onParentVolt, VoltHandlerTag.detectInputVoltage] ∧
    (∀ (s : AssetState) (new_in_volt : ℚ) (now : ℕ),
      dispatchInputVoltageEvent s new_in_volt now =
        (StateManager.update_input_voltage
          (processParentVoltE s new_in_volt now).1 new_in_volt,
         some (processParentVoltE s new_in_volt now).2)) ∧
    (∀ (s : AssetState) (new_in_volt : ℚ),
      (get_next_power_event s new_in_volt).out_volt.old = s.input_voltage) ∧
    (∀ (s : AssetState) (new_in_volt : ℚ) (now : ℕ),
      (dispatchInputVoltageEvent s new_in_volt now).1.input_voltage =
        new_in_volt) := by
  refine ⟨by decide, by decide, fun s v now => rfl, fun s v => rfl,
    fun s v now => rfl⟩

end SimEngine

namespace StorCLI

/-- One status row of the evaluator scans the measured counters to the
boolean "this status wins": true exactly when the status is not the
optimal one and some measured counter meets a non-sentinel threshold of
the row (provided every measured counter is present in the row, as in the
source's well-formed config files). -/
theorem scanRow_eq (cs row : List (String × Int)) (status optimal : String)
    (wf : ∀ pv ∈ cs, (lookupProp row pv.1).isSome) :
    scanRow cs row status optimal =
      some (decide (status ≠ optimal) && statusMatches cs row) := by
  induction cs with
  | nil => simp [scanRow, statusMatches]
  | cons pv rest ih =>
    have hpv : (lookupProp row pv.1).isSome := wf pv (List.mem_cons_self pv rest)
    obtain ⟨t, ht⟩ := Option.isSome_iff_exists.mp hpv
    have hrest : ∀ q ∈ rest, (lookupProp row q.1).isSome :=
      fun q hq => wf q (List.mem_cons_of_mem pv hq)
    simp only [scanRow, ht, statusMatches, List.any_cons]
    by_cases hc : pv.2 ≥ t ∧ t ≠ -1 ∧ status ≠ optimal
    · rw [if_pos hc]
      simp [hc.1, hc.2.1, hc.2.2]
    · rw [if_neg hc]
      rw [ih hrest]
      simp only [statusMatches]
      by_cases ho : status = optimal
      · simp [ho]
      · have hnm : ¬(pv.2 ≥ t ∧ t ≠ -1) := fun h => hc ⟨h.1, h.2, ho⟩
        simp [ho, hnm]

/-- The evaluator agrees with the spec-side first-match description on
every well-formed input. -/
theorem get_state_eq_specFirstMatch
    (s_conf : List (String × List (String × Int)))
    (current_state : List (String × Int)) (optimal : String)
    (wf : ∀ sr ∈ s_conf, ∀ pv ∈ current_state, (lookupProp sr.2 pv.1).isSome) :
    get_state_from_config s_conf current_state optimal =
      some (specFirstMatch s_conf current_state optimal) := by
  induction s_conf with
  | nil => simp [get_state_from_config, specFirstMatch]
  | cons sr rest ih =>
    obtain ⟨status, row⟩ := sr
    have h1 := scanRow_eq current_state row status optimal
      (wf (status, row) (List.mem_cons_self _ rest))
    have hrest : ∀ sr ∈ rest, ∀ pv ∈ current_state,
        (lookupProp sr.2 pv.1).isSome :=
      fun sr hsr => wf sr (List.mem_cons_of_mem _ hsr)
    cases hb : decide (status ≠ optimal) && statusMatches current_state row with
    | true =>
      simp only [get_state_from_config, h1, hb, specFirstMatch,
        List.find?_cons]
    | false =>
      simp only [get_state_from_config, h1, hb, specFirstMatch,
        List.find?_cons, ih hrest]

/-- C5: the threshold evaluator returns the first status in declared
order, skipping the optimal one, that has some measured counter at or
above a non-sentinel threshold, and the optimal name when no status
matches (for well-formed tables in which every measured counter appears
in every row); on the spec's example table it returns Critical rather
than Degraded, and a `-1` threshold never triggers its status even for a
huge measured value. -/
theorem c5_threshold_first_match :
    (∀ (s_conf : List (String × List (String × Int)))
       (current_state : List (String × Int)) (optimal : String),
      (∀ sr ∈ s_conf, ∀ pv ∈ current_state, (lookupProp sr.2 pv.1).isSome) →
      get_state_from_config s_conf current_state optimal =
        some (specFirstMatch s_conf current_state optimal)) ∧
    get_state_from_config criticalDegradedTable errorsFive optimalName =
      some criticalName ∧
    specFirstMatch criticalDegradedTable errorsFive optimalName =
      criticalName ∧
    get_state_from_config sentinelTable errorsHuge optimalName =
      some optimalName := by
  exact ⟨fun s_conf cs optimal wf =>
    get_state_eq_specFirstMatch s_conf cs optimal wf, by decide, by decide,
    by decide⟩

/-- Witness for C5's general component, instantiated at the spec's
example table with its well-formedness hypothesis discharged by
computation. -/
theorem c5_threshold_first_match_witness :
    get_state_from_config criticalDegradedTable errorsFive optimalName =
      some (specFirstMatch criticalDegradedTable errorsFive optimalName) :=
  c5_threshold_first_match.1 criticalDegradedTable errorsFive optimalName
    (by decide)

end StorCLI
